import Mathlib

/-
Verification of the COSMIC-QUERIES application core:
the Gemini fact service (generatePhysicsFact) and the React
lifecycle controller (App.tsx: handleGenerateFact, isCardLoading),
shallowly embedded in Lean 4.
-/

namespace CosmicQueries

/-- A value thrown by JavaScript code: either an Error object carrying a
message (the branch taken by `e instanceof Error`), or any other value. -/
inductive JSThrown where
  | jsError (message : String)
  | nonError
deriving DecidableEq, Repr

/-- The outcome of the underlying `ai.models.generateContent` call: either a
resolved response whose `text` field is a string or absent, or a rejection
throwing some JavaScript value. -/
inductive ProviderOutcome where
  | response (text : Option String)
  | thrown (e : JSThrown)
deriving DecidableEq, Repr

/-- JavaScript truthiness test applied by `!text` in the service and by
`!fact` and `!error` in App.tsx: for a value of type string-or-nullish,
the value is falsy exactly when it is absent or the empty string. -/
def jsFalsy : Option String → Bool
  | none => true
  | some s => s == ""

/-- Whitespace characters removed by JavaScript String.prototype.trim:
WhiteSpace (tab, vertical tab, form feed, space, no-break space, BOM)
and LineTerminator (LF, CR, LS, PS). -/
def isJsWhitespace (c : Char) : Bool :=
  c == ' ' || c == '\t' || c == '\n' || c == '\r' ||
  c == '\x0b' || c == '\x0c' || c == '\u00a0' || c == '\ufeff' ||
  c == '\u2028' || c == '\u2029'

/-- JavaScript String.prototype.trim: strips leading and trailing
whitespace, preserving internal characters. -/
def jsTrim (s : String) : String :=
  String.mk (((s.toList.dropWhile isJsWhitespace).reverse.dropWhile isJsWhitespace).reverse)

/-- Message of the error thrown by the service when the response text is
falsy: "No content was returned from the API." -/
def NO_CONTENT_MESSAGE : String := "No content was returned from the API."

/-- The wrapping head prepended by the service catch block to the message of
any caught Error. -/
def SERVICE_FAILURE_HEAD : String := "Failed to generate fact from AI service: "

/-- Message thrown by the service catch block when the caught value is not
an Error object. -/
def UNKNOWN_SERVICE_MESSAGE : String :=
  "An unknown error occurred while communicating with the AI service."

/-- The body of the try block of generatePhysicsFact: awaits the provider
call (a rejection re-throws the thrown value), checks `if (!text) throw new
Error("No content was returned from the API.")`, and returns `text.trim()`. -/
def tryBody : ProviderOutcome → Except JSThrown String
  | .thrown e => .error e
  | .response text =>
      if jsFalsy text then .error (.jsError NO_CONTENT_MESSAGE)
      else .ok (jsTrim (text.getD ""))

/-- geminiService.ts generatePhysicsFact, as a function of the provider
outcome: runs the try body; in the catch block, an Error is re-thrown with
its message wrapped by SERVICE_FAILURE_HEAD, any other thrown value is
replaced by an Error with UNKNOWN_SERVICE_MESSAGE. -/
def generatePhysicsFact (o : ProviderOutcome) : Except JSThrown String :=
  match tryBody o with
  | .ok v => .ok v
  | .error (.jsError m) => .error (.jsError (SERVICE_FAILURE_HEAD ++ m))
  | .error .nonError => .error (.jsError UNKNOWN_SERVICE_MESSAGE)

/-- The React state of the App component: the three useState cells. -/
structure AppState where
  fact : Option String
  isLoading : Bool
  error : Option String
deriving DecidableEq, Repr

/-- The initial state: useState(null), useState(true), useState(null). -/
def initialState : AppState := ⟨none, true, none⟩

/-- The synchronous start of handleGenerateFact, executed before the await:
`if (!isLoading) setIsLoading(true); setError(null);` — the fact cell is
left untouched. -/
def startFrame (s : AppState) : AppState :=
  let s1 := if !s.isLoading then { s with isLoading := true } else s
  { s1 with error := none }

/-- The message computed by the App catch block:
`e instanceof Error ? e.message : 'An unknown error occurred.'`. -/
def caughtMessage : JSThrown → String
  | .jsError m => m
  | .nonError => "An unknown error occurred."

/-- Settlement of handleGenerateFact once the awaited call settles: on
success `setFact(newFact)`; on failure `setError(errorMessage); setFact(null)`;
in both cases the finally block runs `setIsLoading(false)`. -/
def settle (s : AppState) (r : Except JSThrown String) : AppState :=
  match r with
  | .ok newFact => { s with fact := some newFact, isLoading := false }
  | .error e => { s with error := some (caughtMessage e), fact := none, isLoading := false }

/-- One complete handleGenerateFact invocation, from a starting state and the
outcome of the provider call it makes: the start frame followed by the
settlement of generatePhysicsFact. -/
def handleGenerateFact (s : AppState) (o : ProviderOutcome) : AppState :=
  settle (startFrame s) (generatePhysicsFact o)

/-- App.tsx: `const isCardLoading = isLoading && !fact && !error`. -/
def isCardLoading (s : AppState) : Bool :=
  s.isLoading && jsFalsy s.fact && jsFalsy s.error

/-- An observable point of the App lifecycle: either no request is in flight
(idle), or a request has started and not yet settled (pending). -/
inductive Phase where
  | idle (s : AppState)
  | pending (s : AppState)
deriving DecidableEq, Repr

/-- The state visible in a phase. -/
def stateOf : Phase → AppState
  | .idle s => s
  | .pending s => s

/-- Transitions of the App lifecycle: invoking handleGenerateFact moves an
idle state through its start frame into pending; a pending request settles
with the result of generatePhysicsFact on some provider outcome. -/
inductive Step : Phase → Phase → Prop where
  | invoke (s : AppState) : Step (.idle s) (.pending (startFrame s))
  | settleStep (s : AppState) (o : ProviderOutcome) :
      Step (.pending s) (.idle (settle s (generatePhysicsFact o)))

/-- Phases reachable from the initial state by any sequence of refresh
invocations and settlements. -/
inductive Reachable : Phase → Prop where
  | init : Reachable (.idle initialState)
  | step {p q : Phase} : Reachable p → Step p q → Reachable q

/-- The inductive invariant: in an idle state fact and error are not both
non-null; in a pending state error is null and isLoading is true. -/
def phaseInv : Phase → Prop
  | .idle s => s.fact = none ∨ s.error = none
  | .pending s => s.error = none ∧ s.isLoading = true

/-- The module-level credential check of geminiService.ts: the constructed
GoogleGenAI client, which carries the API key it was given. -/
structure GeminiModule where
  apiKey : String
deriving DecidableEq, Repr

/-- The message of the error thrown at module load when API_KEY is falsy. -/
def API_KEY_ERROR_MESSAGE : String :=
  "The API_KEY environment variable is not set. Please set it to a valid Google Gemini API key."

/-- The top level of geminiService.ts as a function of the environment value
of API_KEY: `const API_KEY = process.env.API_KEY; if (!API_KEY) throw new
Error(...); const ai = new GoogleGenAI({ apiKey: API_KEY });`. -/
def initGeminiService (env_API_KEY : Option String) : Except String GeminiModule :=
  if jsFalsy env_API_KEY then .error API_KEY_ERROR_MESSAGE
  else .ok ⟨env_API_KEY.getD ""⟩

theorem dropWhile_all_of_eq_nil {p : Char → Bool} {l : List Char}
    (h : l.dropWhile p = []) : ∀ x ∈ l, p x = true := by
  intro x hx
  rw [← List.takeWhile_append_dropWhile (p := p) (l := l), h, List.append_nil] at hx
  exact List.mem_takeWhile_imp hx

theorem jsTrim_eq_empty_all_whitespace {t : String} (h : jsTrim t = "") :
    ∀ x ∈ t.toList, isJsWhitespace x = true := by
  unfold jsTrim at h
  have h1 : ((t.toList.dropWhile isJsWhitespace).reverse.dropWhile isJsWhitespace).reverse = [] := by
    have := congrArg String.toList h
    simpa using this
  rw [List.reverse_eq_nil_iff] at h1
  have h2 : ∀ x ∈ (t.toList.dropWhile isJsWhitespace).reverse, isJsWhitespace x = true :=
    dropWhile_all_of_eq_nil h1
  intro x hx
  rw [← List.takeWhile_append_dropWhile (p := isJsWhitespace) (l := t.toList)] at hx
  rcases List.mem_append.mp hx with hx1 | hx2
  · exact List.mem_takeWhile_imp hx1
  · exact h2 x (List.mem_reverse.mpr hx2)

theorem startFrame_isLoading (s : AppState) : (startFrame s).isLoading = true := by
  cases h : s.isLoading <;> simp [startFrame, h]

theorem startFrame_error (s : AppState) : (startFrame s).error = none := by
  cases h : s.isLoading <;> simp [startFrame, h]

theorem startFrame_fact (s : AppState) : (startFrame s).fact = s.fact := by
  cases h : s.isLoading <;> simp [startFrame, h]

theorem reachable_phaseInv {p : Phase} (h : Reachable p) : phaseInv p := by
  induction h with
  | init => simp [phaseInv, initialState]
  | step _ hs ih =>
      cases hs with
      | invoke s =>
          exact ⟨startFrame_error s, startFrame_isLoading s⟩
      | settleStep s o =>
          cases hr : generatePhysicsFact o with
          | ok v =>
              right
              simp only [phaseInv, settle, hr]
              exact ih.1
          | error e =>
              simp [phaseInv, settle, hr]

/-- C1: in every phase reachable from the initial state (fact null,
isLoading true, error null) by refresh invocations and settlements, fact and
error are never both non-null; every successful settlement of a reachable
pending request leaves error null, and every failed settlement leaves fact
null. -/
theorem C1_mutual_exclusivity (p : Phase) (h : Reachable p) :
    (¬((stateOf p).fact ≠ none ∧ (stateOf p).error ≠ none)) ∧
    (∀ (s : AppState) (v : String), Reachable (Phase.pending s) →
        (settle s (Except.ok v)).error = none) ∧
    (∀ (s : AppState) (e : JSThrown), (settle s (Except.error e)).fact = none) := by
  refine ⟨?_, ?_, ?_⟩
  · have hi := reachable_phaseInv h
    cases p with
    | idle s =>
        rintro ⟨hf, he⟩
        rcases hi with h1 | h1
        · exact hf h1
        · exact he h1
    | pending s =>
        rintro ⟨hf, he⟩
        exact he hi.1
  · intro s v hp
    have hi := reachable_phaseInv hp
    simpa [settle] using hi.1
  · intro s e
    simp [settle]

theorem C1_mutual_exclusivity_witness :
    ¬((stateOf (Phase.idle initialState)).fact ≠ none ∧
      (stateOf (Phase.idle initialState)).error ≠ none) :=
  (C1_mutual_exclusivity (Phase.idle initialState) Reachable.init).1

/-- C2 counterexample: the claim that getFact never returns an empty string
as a success value is false — a whitespace-only payload is truthy, passes
the `if (!text)` check, and trims to the empty string, which is returned as
a successful fact. -/
theorem C2_counterexample :
    generatePhysicsFact (ProviderOutcome.response (some " ")) = Except.ok "" := by
  rfl

/-- C2 (amended): for every provider response whose textual payload is empty
or absent, getFact fails with the empty-response error (its message wrapped
by the catch block); getFact returns an empty string as a success value only
when the payload is non-empty but consists entirely of whitespace. -/
theorem C2_empty_response_amended :
    generatePhysicsFact (ProviderOutcome.response none) =
      Except.error (JSThrown.jsError (SERVICE_FAILURE_HEAD ++ NO_CONTENT_MESSAGE)) ∧
    generatePhysicsFact (ProviderOutcome.response (some "")) =
      Except.error (JSThrown.jsError (SERVICE_FAILURE_HEAD ++ NO_CONTENT_MESSAGE)) ∧
    (∀ t : String, generatePhysicsFact (ProviderOutcome.response (some t)) = Except.ok "" →
        t ≠ "" ∧ ∀ x ∈ t.toList, isJsWhitespace x = true) := by
  refine ⟨rfl, rfl, ?_⟩
  intro t h
  by_cases ht : t = ""
  · subst ht
    simp [generatePhysicsFact, tryBody, jsFalsy] at h
  · refine ⟨ht, ?_⟩
    have hj : jsTrim t = "" := by
      simp [generatePhysicsFact, tryBody, jsFalsy, ht] at h
      exact h
    exact jsTrim_eq_empty_all_whitespace hj

theorem C2_empty_response_amended_witness :
    (" " : String) ≠ "" ∧ ∀ x ∈ (" " : String).toList, isJsWhitespace x = true :=
  C2_empty_response_amended.2.2 " " rfl

/-- C3: if handleGenerateFact is invoked from any state and the provider
call fails with an Error carrying message M, then after settlement fact is
null and error equals exactly M: the failure message reaches the error field
unchanged and the old fact is discarded. -/
theorem C3_failure_transition (s : AppState) (o : ProviderOutcome) (M : String)
    (h : generatePhysicsFact o = Except.error (JSThrown.jsError M)) :
    (handleGenerateFact s o).fact = none ∧ (handleGenerateFact s o).error = some M := by
  simp [handleGenerateFact, h, settle, caughtMessage]

theorem C3_failure_transition_witness :
    (handleGenerateFact ⟨some "old fact", false, none⟩
        (ProviderOutcome.thrown (JSThrown.jsError "timeout"))).fact = none ∧
    (handleGenerateFact ⟨some "old fact", false, none⟩
        (ProviderOutcome.thrown (JSThrown.jsError "timeout"))).error =
      some (SERVICE_FAILURE_HEAD ++ "timeout") :=
  C3_failure_transition ⟨some "old fact", false, none⟩
    (ProviderOutcome.thrown (JSThrown.jsError "timeout"))
    (SERVICE_FAILURE_HEAD ++ "timeout") rfl

/-- C4: invoking handleGenerateFact sets isLoading to true (a no-op when it
is already true) and error to null in its start frame, and leaves the fact
field exactly as it was. -/
theorem C4_refresh_start_frame (s : AppState) :
    (startFrame s).isLoading = true ∧ (startFrame s).error = none ∧
    (startFrame s).fact = s.fact :=
  ⟨startFrame_isLoading s, startFrame_error s, startFrame_fact s⟩

/-- C5: the start frame of every invocation sets isLoading true, isLoading
is true throughout every reachable pending phase, and settlement sets
isLoading false regardless of whether the call succeeded or failed. -/
theorem C5_loading_bracket :
    (∀ s : AppState, (startFrame s).isLoading = true) ∧
    (∀ s : AppState, Reachable (Phase.pending s) → s.isLoading = true) ∧
    (∀ (s : AppState) (r : Except JSThrown String), (settle s r).isLoading = false) := by
  refine ⟨startFrame_isLoading, ?_, ?_⟩
  · intro s hp
    exact (reachable_phaseInv hp).2
  · intro s r
    cases r <;> simp [settle]

theorem C5_loading_bracket_witness :
    (startFrame initialState).isLoading = true ∧
    (settle (startFrame initialState) (Except.ok "a fact")).isLoading = false :=
  ⟨C5_loading_bracket.2.1 (startFrame initialState)
      (Reachable.step Reachable.init (Step.invoke initialState)),
    C5_loading_bracket.2.2 (startFrame initialState) (Except.ok "a fact")⟩

/-- C6: when the provider call rejects with an Error carrying message M,
generatePhysicsFact fails with the wrapped message "Failed to generate fact
from AI service: " followed by M; when the rejection value is not an Error,
it fails with the fixed generic message; and in the initial-load failure
scenario the fact field stays null. -/
theorem C6_provider_failure_wrapping :
    (∀ M : String, generatePhysicsFact (ProviderOutcome.thrown (JSThrown.jsError M)) =
        Except.error (JSThrown.jsError (SERVICE_FAILURE_HEAD ++ M))) ∧
    generatePhysicsFact (ProviderOutcome.thrown JSThrown.nonError) =
        Except.error (JSThrown.jsError UNKNOWN_SERVICE_MESSAGE) ∧
    (∀ M : String,
        (handleGenerateFact initialState (ProviderOutcome.thrown (JSThrown.jsError M))).fact
          = none) :=
  ⟨fun _ => rfl, rfl, fun _ => rfl⟩

/-- C7 counterexample: the claimed equivalence "isCardLoading is true iff
isLoading is true and fact is null and error is null" fails at the state
with fact = some "" (the empty string is falsy, so the flag is true with a
non-null fact), and the claimed falseness of the flag during a refresh
started from a state with non-null error fails: the start frame clears the
error, making the flag true. -/
theorem C7_counterexample :
    isCardLoading ⟨some "", true, none⟩ = true ∧ (some "" : Option String) ≠ none ∧
    isCardLoading (startFrame ⟨none, false, some "boom"⟩) = true ∧
    (some "boom" : Option String) ≠ none := by
  refine ⟨rfl, by simp, rfl, by simp⟩

/-- C7 (amended): isCardLoading is true iff isLoading is true and fact is
null or empty and error is null or empty; in particular it is false
throughout every refresh that starts from a state whose fact is non-null
and non-empty. -/
theorem C7_derived_display_flag_amended :
    (∀ s : AppState, isCardLoading s = true ↔
        (s.isLoading = true ∧ jsFalsy s.fact = true ∧ jsFalsy s.error = true)) ∧
    (∀ (s : AppState) (o : ProviderOutcome), s.fact ≠ none → s.fact ≠ some "" →
        isCardLoading (startFrame s) = false ∧
        isCardLoading (handleGenerateFact s o) = false) := by
  constructor
  · intro s
    simp [isCardLoading, Bool.and_assoc]
  · intro s o h1 h2
    have hf : jsFalsy s.fact = false := by
      cases hs : s.fact with
      | none => exact absurd hs h1
      | some t =>
          have ht : t ≠ "" := by
            intro h
            apply h2
            rw [hs, h]
          simp [jsFalsy, ht]
    constructor
    · simp [isCardLoading, startFrame_fact, hf]
    · have hl : (handleGenerateFact s o).isLoading = false := by
        unfold handleGenerateFact
        cases generatePhysicsFact o <;> simp [settle]
      simp [isCardLoading, hl]

theorem C7_derived_display_flag_amended_witness :
    isCardLoading (startFrame ⟨some "X", false, none⟩) = false ∧
    isCardLoading (handleGenerateFact ⟨some "X", false, none⟩
        (ProviderOutcome.response (some "Y"))) = false :=
  C7_derived_display_flag_amended.2 ⟨some "X", false, none⟩
    (ProviderOutcome.response (some "Y")) (by decide) (by decide)

/-- C8 counterexample: the claim that a present credential always allows
construction is false — an empty-string API_KEY is present in the
environment but falsy, so the module throws the configuration error. -/
theorem C8_counterexample :
    initGeminiService (some "") = Except.error API_KEY_ERROR_MESSAGE := rfl

/-- C8 (amended): if the API credential is absent at process start the
module throws the configuration error and no provider object is produced;
if it is present and non-empty, construction succeeds with a provider
holding that key. -/
theorem C8_configuration_fatal_amended :
    initGeminiService none = Except.error API_KEY_ERROR_MESSAGE ∧
    (∀ k : String, k ≠ "" → initGeminiService (some k) = Except.ok ⟨k⟩) := by
  refine ⟨rfl, ?_⟩
  intro k hk
  simp [initGeminiService, jsFalsy, hk]

theorem C8_configuration_fatal_amended_witness :
    initGeminiService (some "valid-key") = Except.ok ⟨"valid-key"⟩ :=
  C8_configuration_fatal_amended.2 "valid-key" (by decide)

/-- C9: a payload of "  A fact.  \n" is non-empty, passes the presence
check, and is returned with leading and trailing whitespace stripped and
internal whitespace preserved: exactly "A fact.". -/
theorem C9_trim_behaviour :
    generatePhysicsFact (ProviderOutcome.response (some "  A fact.  \n")) =
      Except.ok "A fact." := by
  rfl

/-- C10: every failure generatePhysicsFact throws to its caller is an Error
whose message either begins with "Failed to generate fact from AI service: "
or equals the fixed unknown-error message; in particular the empty-payload
failure is itself caught and re-wrapped, yielding the prefixed
no-content message, so the caller cannot distinguish it from any other
provider failure. -/
theorem C10_error_taxonomy_collapse :
    (∀ (o : ProviderOutcome) (e : JSThrown), generatePhysicsFact o = Except.error e →
        ∃ m : String, e = JSThrown.jsError m ∧
          ((∃ rest : String, m = SERVICE_FAILURE_HEAD ++ rest) ∨
            m = UNKNOWN_SERVICE_MESSAGE)) ∧
    generatePhysicsFact (ProviderOutcome.response none) =
        Except.error (JSThrown.jsError (SERVICE_FAILURE_HEAD ++ NO_CONTENT_MESSAGE)) ∧
    generatePhysicsFact (ProviderOutcome.response (some "")) =
        Except.error (JSThrown.jsError (SERVICE_FAILURE_HEAD ++ NO_CONTENT_MESSAGE)) := by
  refine ⟨?_, rfl, rfl⟩
  intro o e h
  cases hb : tryBody o with
  | ok v =>
      simp [generatePhysicsFact, hb] at h
  | error e0 =>
      cases e0 with
      | jsError m0 =>
          simp [generatePhysicsFact, hb] at h
          exact ⟨SERVICE_FAILURE_HEAD ++ m0, h.symm, Or.inl ⟨m0, rfl⟩⟩
      | nonError =>
          simp [generatePhysicsFact, hb] at h
          exact ⟨UNKNOWN_SERVICE_MESSAGE, h.symm, Or.inr rfl⟩

theorem C10_error_taxonomy_collapse_witness :
    ∃ m : String, JSThrown.jsError UNKNOWN_SERVICE_MESSAGE = JSThrown.jsError m ∧
      ((∃ rest : String, m = SERVICE_FAILURE_HEAD ++ rest) ∨
        m = UNKNOWN_SERVICE_MESSAGE) :=
  C10_error_taxonomy_collapse.1 (ProviderOutcome.thrown JSThrown.nonError)
    (JSThrown.jsError UNKNOWN_SERVICE_MESSAGE) rfl

end CosmicQueries
